import Mathlib

/-!
A verification development for the SIYI gimbal-camera wire codec
(crate siyi-cam-rs, module transport).  Byte slices are modelled as
lists of natural numbers (each entry a u8 value); 16-bit and 64-bit
machine arithmetic is made explicit with modular reductions.  Fallible
slice indexing is modelled with Option: a decoder result of the shape
(some r) means the Rust function returned r, while an outer none marks
an out-of-bounds slice index, i.e. a Rust panic.
-/

namespace Siyi

/-- Zoom factor: integer part and first fractional decimal digit, both u8. -/
structure ZoomFactor where
  int : Nat
  fract : Nat
deriving Repr, DecidableEq

inductive ZoomMode where
  | ZoomIn
  | StopZoom
  | ZoomOut
deriving Repr, DecidableEq

inductive CenterPos where
  | Default
  | Pos0
deriving Repr, DecidableEq

inductive GimbalMode where
  | LockMode
  | FollowMode
  | FPVMode
deriving Repr, DecidableEq

/-- Outbound command variants; angles are i16 values modelled as Int. -/
inductive SiyiCommand where
  | ControlAngle : Int → Int → SiyiCommand
  | AbsZoom : ZoomFactor → SiyiCommand
  | AutoZoom : ZoomMode → SiyiCommand
  | WorkingMode : GimbalMode → SiyiCommand
  | Center : CenterPos → SiyiCommand
deriving Repr, DecidableEq

inductive AckResult where
  | Success
  | Error
deriving Repr, DecidableEq

/-- Reported orientation, three i16 fields, in source declaration order. -/
structure ControlAngles where
  yaw : Int
  pitch : Int
  roll : Int
deriving Repr, DecidableEq

inductive SiyiAck where
  | Center : AckResult → SiyiAck
  | ControlAngle : ControlAngles → SiyiAck
deriving Repr, DecidableEq

inductive SiyiAckId where
  | Center
  | ControlAngle
deriving Repr, DecidableEq

/-- TryFrom of u8 for SiyiAckId: 0x08 is Center, 0x0E is ControlAngle. -/
def SiyiAckId.tryFromByte (value : Nat) : Option SiyiAckId :=
  if value = 0x08 then some .Center
  else if value = 0x0E then some .ControlAngle
  else none

/-- The 256-entry checksum table CRC16_TAB, transcribed from the source. -/
def CRC16_TAB : List Nat := [
  0x0, 0x1021, 0x2042, 0x3063, 0x4084, 0x50a5, 0x60c6, 0x70e7,
  0x8108, 0x9129, 0xa14a, 0xb16b, 0xc18c, 0xd1ad, 0xe1ce, 0xf1ef,
  0x1231, 0x210, 0x3273, 0x2252, 0x52b5, 0x4294, 0x72f7, 0x62d6,
  0x9339, 0x8318, 0xb37b, 0xa35a, 0xd3bd, 0xc39c, 0xf3ff, 0xe3de,
  0x2462, 0x3443, 0x420, 0x1401, 0x64e6, 0x74c7, 0x44a4, 0x5485,
  0xa56a, 0xb54b, 0x8528, 0x9509, 0xe5ee, 0xf5cf, 0xc5ac, 0xd58d,
  0x3653, 0x2672, 0x1611, 0x630, 0x76d7, 0x66f6, 0x5695, 0x46b4,
  0xb75b, 0xa77a, 0x9719, 0x8738, 0xf7df, 0xe7fe, 0xd79d, 0xc7bc,
  0x48c4, 0x58e5, 0x6886, 0x78a7, 0x840, 0x1861, 0x2802, 0x3823,
  0xc9cc, 0xd9ed, 0xe98e, 0xf9af, 0x8948, 0x9969, 0xa90a, 0xb92b,
  0x5af5, 0x4ad4, 0x7ab7, 0x6a96, 0x1a71, 0xa50, 0x3a33, 0x2a12,
  0xdbfd, 0xcbdc, 0xfbbf, 0xeb9e, 0x9b79, 0x8b58, 0xbb3b, 0xab1a,
  0x6ca6, 0x7c87, 0x4ce4, 0x5cc5, 0x2c22, 0x3c03, 0xc60, 0x1c41,
  0xedae, 0xfd8f, 0xcdec, 0xddcd, 0xad2a, 0xbd0b, 0x8d68, 0x9d49,
  0x7e97, 0x6eb6, 0x5ed5, 0x4ef4, 0x3e13, 0x2e32, 0x1e51, 0xe70,
  0xff9f, 0xefbe, 0xdfdd, 0xcffc, 0xbf1b, 0xaf3a, 0x9f59, 0x8f78,
  0x9188, 0x81a9, 0xb1ca, 0xa1eb, 0xd10c, 0xc12d, 0xf14e, 0xe16f,
  0x1080, 0xa1, 0x30c2, 0x20e3, 0x5004, 0x4025, 0x7046, 0x6067,
  0x83b9, 0x9398, 0xa3fb, 0xb3da, 0xc33d, 0xd31c, 0xe37f, 0xf35e,
  0x2b1, 0x1290, 0x22f3, 0x32d2, 0x4235, 0x5214, 0x6277, 0x7256,
  0xb5ea, 0xa5cb, 0x95a8, 0x8589, 0xf56e, 0xe54f, 0xd52c, 0xc50d,
  0x34e2, 0x24c3, 0x14a0, 0x481, 0x7466, 0x6447, 0x5424, 0x4405,
  0xa7db, 0xb7fa, 0x8799, 0x97b8, 0xe75f, 0xf77e, 0xc71d, 0xd73c,
  0x26d3, 0x36f2, 0x691, 0x16b0, 0x6657, 0x7676, 0x4615, 0x5634,
  0xd94c, 0xc96d, 0xf90e, 0xe92f, 0x99c8, 0x89e9, 0xb98a, 0xa9ab,
  0x5844, 0x4865, 0x7806, 0x6827, 0x18c0, 0x8e1, 0x3882, 0x28a3,
  0xcb7d, 0xdb5c, 0xeb3f, 0xfb1e, 0x8bf9, 0x9bd8, 0xabbb, 0xbb9a,
  0x4a75, 0x5a54, 0x6a37, 0x7a16, 0xaf1, 0x1ad0, 0x2ab3, 0x3a92,
  0xfd2e, 0xed0f, 0xdd6c, 0xcd4d, 0xbdaa, 0xad8b, 0x9de8, 0x8dc9,
  0x7c26, 0x6c07, 0x5c64, 0x4c45, 0x3ca2, 0x2c83, 0x1ce0, 0xcc1,
  0xef1f, 0xff3e, 0xcf5d, 0xdf7c, 0xaf9b, 0xbfba, 0x8fd9, 0x9ff8,
  0x6e17, 0x7e36, 0x4e55, 0x5e74, 0x2e93, 0x3eb2, 0xed1, 0x1ef0,
  ]

/-- crc16_cal: table-driven 16-bit checksum.  The accumulator is a u16,
so the left shift wraps modulo 2^16; the table index is the input byte
xored with the high byte of the accumulator. -/
def crc16_cal (ptr : List Nat) : Nat :=
  ptr.foldl (fun crc byte =>
    let temp := (crc >>> 8) &&& 0xff
    let index := byte ^^^ temp
    let oldcrc16 := CRC16_TAB.getD index 0
    ((crc <<< 8) ^^^ oldcrc16) % 65536) 0

/-- Rust i16 clamp(lo, hi). -/
def clampI16 (v lo hi : Int) : Int :=
  if v < lo then lo else if v > hi then hi else v

/-- i16 to_le_bytes: two's-complement little-endian byte pair. -/
def i16le (v : Int) : List Nat :=
  let u := (v % 65536).toNat
  [u % 256, (u / 256) % 256]

/-- u16 to_le_bytes: little-endian byte pair. -/
def u16le (c : Nat) : List Nat :=
  [c % 256, (c / 256) % 256]

/-- i16 from_le_bytes of two u8 values. -/
def i16FromLe (a b : Nat) : Int :=
  let u := (a % 256) + 256 * (b % 256)
  if u < 32768 then (u : Int) else (u : Int) - 65536

/-- i16 from_be_bytes of two u8 values. -/
def i16FromBe (a b : Nat) : Int :=
  let u := 256 * (a % 256) + (b % 256)
  if u < 32768 then (u : Int) else (u : Int) - 65536

/-- u16 from_le_bytes of two u8 values. -/
def u16FromLe (a b : Nat) : Nat :=
  (a % 256) + 256 * (b % 256)

/-- Rust cast i16 as usize: sign extension reinterpreted as a 64-bit
unsigned value. -/
def i16AsUsize (v : Int) : Nat :=
  (v % 18446744073709551616).toNat

/-- SiyiCommand::to_bytes_with_seq: build the wire frame for a command.
Each arm writes the fixed header (with its per-command literal length
field and identifier), the serialized parameters, then the little-endian
crc16_cal checksum of everything written so far. -/
def SiyiCommand.to_bytes_with_seq (cmd : SiyiCommand) (seq : Nat) : List Nat :=
  match cmd with
  | .ControlAngle yaw pitch =>
    let byte_arr := [0x55, 0x66, 0x01, 0x04, 0x00, seq, 0x00, 0x0e]
      ++ i16le (clampI16 yaw (-1350) 1350) ++ i16le (clampI16 pitch (-900) 250)
    byte_arr ++ u16le (crc16_cal byte_arr)
  | .AbsZoom zoom =>
    let byte_arr := [0x55, 0x66, 0x01, 0x02, 0x00, seq, 0x00, 0x0f]
      ++ [zoom.int] ++ [zoom.fract]
    byte_arr ++ u16le (crc16_cal byte_arr)
  | .AutoZoom zoom =>
    let zoomByte : Nat := match zoom with
      | .ZoomIn => 1
      | .StopZoom => 0
      | .ZoomOut => 0xff
    let byte_arr := [0x55, 0x66, 0x01, 0x01, 0x00, seq, 0x00, 0x05] ++ [zoomByte]
    byte_arr ++ u16le (crc16_cal byte_arr)
  | .WorkingMode mode =>
    let modeByte : Nat := match mode with
      | .LockMode => 0
      | .FollowMode => 1
      | .FPVMode => 2
    let byte_arr := [0x55, 0x66, 0x01, 0x01, 0x00, seq, 0x00, 0x19] ++ [modeByte]
    byte_arr ++ u16le (crc16_cal byte_arr)
  | .Center center_pos =>
    let posByte : Nat := match center_pos with
      | .Default => 0
      | .Pos0 => 1
    let byte_arr := [0x55, 0x66, 0x01, 0x01, 0x00, seq, 0x00, 0x08] ++ [posByte]
    byte_arr ++ u16le (crc16_cal byte_arr)

/-- SiyiCommand::to_bytes: encode with sequence number 0. -/
def SiyiCommand.to_bytes (cmd : SiyiCommand) : List Nat :=
  cmd.to_bytes_with_seq 0

/-- SiyiAck::from_bytes.  The outer Option records panics: none means an
out-of-bounds slice index; some none means the Rust function returned
None; some (some a) means it returned Some(a).  Slice indexing follows
the source order, including the short-circuit of the sync check (byte 1
is read only when byte 0 equals 0x55) and the fact that bytes 0 and 1
are read before any length test.  The length comparison reproduces the
release-mode wrapping of 10 + (length field as usize) modulo 2^64. -/
def SiyiAck.from_bytes (bytes : List Nat) : Option (Option SiyiAck) :=
  match bytes.get? 0 with
  | none => none
  | some b0 =>
    if b0 ≠ 0x55 then some none else
    match bytes.get? 1 with
    | none => none
    | some b1 =>
      if b1 ≠ 0x66 then some none else
      if bytes.length < 8 then some none else
      match bytes.get? 3, bytes.get? 4 with
      | some b3, some b4 =>
        if (10 + i16AsUsize (i16FromLe b3 b4)) % 18446744073709551616
            ≠ bytes.length then some none else
        match bytes.get? (bytes.length - 2), bytes.get? (bytes.length - 1) with
        | some cl, some ch =>
          if crc16_cal (bytes.take (bytes.length - 2)) ≠ u16FromLe cl ch
          then some none else
          match bytes.get? 7 with
          | some b7 =>
            match SiyiAckId.tryFromByte b7 with
            | none => some none
            | some .Center =>
              match bytes.get? 8 with
              | none => none
              | some b8 =>
                some (some (.Center (if b8 ≠ 0 then .Success else .Error)))
            | some .ControlAngle =>
              match bytes.get? 8, bytes.get? 9, bytes.get? 10,
                    bytes.get? 11, bytes.get? 12, bytes.get? 13 with
              | some p1, some p2, some y1, some y2, some r1, some r2 =>
                some (some (.ControlAngle
                  { yaw := i16FromBe y1 y2
                    pitch := i16FromBe p1 p2
                    roll := i16FromBe r1 r2 }))
              | _, _, _, _, _, _ => none
          | none => none
        | _, _ => none
      | _, _ => none


/-! ### Reference checksum definition (from the documented CRC parameters) -/

/-- One shift step of the reference CRC-16/CCITT bit algorithm:
polynomial 0x1021, 16-bit truncation, no reflection. -/
def refStep (c : Nat) : Nat :=
  if c &&& 0x8000 ≠ 0 then ((c <<< 1) ^^^ 0x1021) % 65536
  else (c <<< 1) % 65536

/-- Reference table entry for byte n: eight shift steps starting from
n placed in the high byte of the 16-bit accumulator. -/
def refEntry (n : Nat) : Nat :=
  refStep^[8] (n <<< 8)

/-- The 256-entry table recomputed from the reference definition. -/
def refTable : List Nat :=
  (List.range 256).map refEntry

/-! ### Concrete decoder inputs used as witnesses -/

/-- A well-formed Center acknowledgment frame with payload byte 0x01. -/
def centerSuccessFrame : List Nat :=
  [0x55, 0x66, 0x01, 0x01, 0x00, 0x00, 0x00, 0x08, 0x01, 0xD1, 0x12]

/-- A well-formed ControlAngle acknowledgment frame reporting
pitch 10, yaw -10, roll 0 (big-endian payload fields). -/
def controlAngleAckFrame : List Nat :=
  [0x55, 0x66, 0x01, 0x06, 0x00, 0x00, 0x00, 0x0E,
   0x00, 0x0A, 0xFF, 0xF6, 0x00, 0x00, 0xA9, 0x0F]

/-! ### Theorems -/

/-- Claim C5: encoding ControlAngle(0, -90) with sequence byte 0 yields
exactly the byte sequence 55 66 01 04 00 00 00 0E 00 00 A6 FF C0 6E. -/
theorem control_angle_test_vector :
    SiyiCommand.to_bytes_with_seq (.ControlAngle 0 (-90)) 0 =
      [0x55, 0x66, 0x01, 0x04, 0x00, 0x00, 0x00, 0x0e,
       0x00, 0x00, 0xa6, 0xff, 0xc0, 0x6e] := by
  decide

set_option maxRecDepth 4000 in
/-- Claim C4: crc16_cal agrees with the reference CRC-16/CCITT
definition (polynomial 0x1021, initial value 0, no reflection): the
table CRC16_TAB equals the table recomputed from the polynomial, the
per-byte step xors the left-shifted accumulator with the table entry at
(high byte of accumulator) xor (input byte), truncated to 16 bits, and
the checksum of the empty sequence is 0. -/
theorem crc16_matches_ccitt_reference :
    refTable = CRC16_TAB ∧
    (∀ bs : List Nat, crc16_cal bs =
      bs.foldl (fun acc b =>
        ((acc <<< 8) ^^^ refTable.getD (((acc >>> 8) &&& 0xff) ^^^ b) 0) % 65536)
        0) ∧
    crc16_cal [] = 0 := by
  have htab : refTable = CRC16_TAB := by decide
  refine ⟨htab, fun bs => ?_, rfl⟩
  unfold crc16_cal
  congr 1
  funext acc b
  simp only [htab, Nat.xor_comm b]

/-- Claim C1 (code-bug evidence): on the empty slice the decoder reads
index 0 before any length check; the model records the out-of-bounds
read as none, a panic, rather than a returned value. -/
theorem from_bytes_empty_slice_panics :
    SiyiAck.from_bytes [] = none := by
  rfl

/-- Claim C2 (code-bug evidence): the one-byte slice [0x55] is shorter
than 8 bytes, yet the decoder reads index 1 before any length check, so
the model records a panic (none) instead of a returned None. -/
theorem from_bytes_len1_slice_panics :
    SiyiAck.from_bytes [0x55] = none ∧ [0x55].length < 8 := by
  exact ⟨rfl, by decide⟩

/-- Claim C3: every encoded frame starts with the sync bytes 0x55 0x66,
its total length equals the little-endian 16-bit length field at
offsets 3-4 plus 10, and its trailing two bytes are the little-endian
crc16_cal checksum of every preceding byte of the frame. -/
theorem to_bytes_frame_invariants (cmd : SiyiCommand) (seq : Nat) :
    (cmd.to_bytes_with_seq seq).take 2 = [0x55, 0x66] ∧
    (cmd.to_bytes_with_seq seq).length =
      u16FromLe ((cmd.to_bytes_with_seq seq).getD 3 0)
        ((cmd.to_bytes_with_seq seq).getD 4 0) + 10 ∧
    (cmd.to_bytes_with_seq seq).drop ((cmd.to_bytes_with_seq seq).length - 2) =
      u16le (crc16_cal ((cmd.to_bytes_with_seq seq).take
        ((cmd.to_bytes_with_seq seq).length - 2))) := by
  cases cmd <;> exact ⟨rfl, rfl, rfl⟩

/-- Claim C6: for all i16 yaw and pitch and any sequence byte, the
ControlAngle payload at offsets 8-11 is the little-endian encoding of
clamp(yaw, -1350, 1350) followed by clamp(pitch, -900, 250), and the
clamped values always lie inside those ranges. -/
theorem control_angle_payload_clamped (yaw pitch : Int) (seq : Nat) :
    ((SiyiCommand.to_bytes_with_seq (.ControlAngle yaw pitch) seq).drop 8).take 4 =
      i16le (clampI16 yaw (-1350) 1350) ++ i16le (clampI16 pitch (-900) 250) ∧
    -1350 ≤ clampI16 yaw (-1350) 1350 ∧ clampI16 yaw (-1350) 1350 ≤ 1350 ∧
    -900 ≤ clampI16 pitch (-900) 250 ∧ clampI16 pitch (-900) 250 ≤ 250 := by
  refine ⟨rfl, ?_, ?_, ?_, ?_⟩ <;>
    (unfold clampI16; split; · omega
     split <;> omega)

/-- Indexing below the length always yields a value. -/
lemma get?_some_of_lt {l : List Nat} {i : Nat} (h : i < l.length) :
    ∃ v, l.get? i = some v :=
  ⟨l.get ⟨i, h⟩, List.get?_eq_get h⟩

/-- Claim C10: on any slice of length at least 14 every index the
decoder reads is in bounds, so from_bytes returns a value (Some or
None) and never panics. -/
theorem from_bytes_no_oob_on_long_slices (bytes : List Nat)
    (h : 14 ≤ bytes.length) :
    ∃ r, SiyiAck.from_bytes bytes = some r := by
  obtain ⟨b0, e0⟩ := get?_some_of_lt (l := bytes) (i := 0) (by omega)
  obtain ⟨b1, e1⟩ := get?_some_of_lt (l := bytes) (i := 1) (by omega)
  obtain ⟨b3, e3⟩ := get?_some_of_lt (l := bytes) (i := 3) (by omega)
  obtain ⟨b4, e4⟩ := get?_some_of_lt (l := bytes) (i := 4) (by omega)
  obtain ⟨b7, e7⟩ := get?_some_of_lt (l := bytes) (i := 7) (by omega)
  obtain ⟨b8, e8⟩ := get?_some_of_lt (l := bytes) (i := 8) (by omega)
  obtain ⟨b9, e9⟩ := get?_some_of_lt (l := bytes) (i := 9) (by omega)
  obtain ⟨b10, e10⟩ := get?_some_of_lt (l := bytes) (i := 10) (by omega)
  obtain ⟨b11, e11⟩ := get?_some_of_lt (l := bytes) (i := 11) (by omega)
  obtain ⟨b12, e12⟩ := get?_some_of_lt (l := bytes) (i := 12) (by omega)
  obtain ⟨b13, e13⟩ := get?_some_of_lt (l := bytes) (i := 13) (by omega)
  obtain ⟨cl, eL2⟩ :=
    get?_some_of_lt (l := bytes) (i := bytes.length - 2) (by omega)
  obtain ⟨ch, eL1⟩ :=
    get?_some_of_lt (l := bytes) (i := bytes.length - 1) (by omega)
  simp only [SiyiAck.from_bytes, e0, e1, e3, e4, e7, e8, e9, e10, e11, e12,
    e13, eL2, eL1, SiyiAckId.tryFromByte]
  repeat' split
  all_goals exact ⟨_, rfl⟩

/-- Witness for claim C10 at the all-zero slice of length 14. -/
theorem from_bytes_no_oob_witness :
    14 ≤ (List.replicate 14 0).length ∧
    ∃ r, SiyiAck.from_bytes (List.replicate 14 0) = some r :=
  ⟨by decide, from_bytes_no_oob_on_long_slices _ (by decide)⟩

/-- Inversion of a successful decode: the identifier byte selects the
variant, and the payload bytes determine the returned value. -/
lemma from_bytes_some_some (bytes : List Nat) (a : SiyiAck)
    (hs : SiyiAck.from_bytes bytes = some (some a)) :
    ∃ b7, bytes.get? 7 = some b7 ∧
      ((SiyiAckId.tryFromByte b7 = some .Center ∧
        ∃ b8, bytes.get? 8 = some b8 ∧
          a = .Center (if b8 ≠ 0 then .Success else .Error)) ∨
       (SiyiAckId.tryFromByte b7 = some .ControlAngle ∧
        ∃ p1 p2 y1 y2 r1 r2,
          bytes.get? 8 = some p1 ∧ bytes.get? 9 = some p2 ∧
          bytes.get? 10 = some y1 ∧ bytes.get? 11 = some y2 ∧
          bytes.get? 12 = some r1 ∧ bytes.get? 13 = some r2 ∧
          a = .ControlAngle { yaw := i16FromBe y1 y2
                              pitch := i16FromBe p1 p2
                              roll := i16FromBe r1 r2 })) := by
  unfold SiyiAck.from_bytes at hs
  repeat' split at hs
  all_goals simp only [Option.some.injEq, reduceCtorEq] at hs
  all_goals first
  | exact ⟨_, by assumption, Or.inl ⟨by assumption, _, by assumption,
      by subst hs; simp [*]⟩⟩
  | exact ⟨_, by assumption, Or.inr ⟨by assumption, _, _, _, _, _, _,
      by assumption, by assumption, by assumption, by assumption,
      by assumption, by assumption, hs.symm⟩⟩

/-- Claim C7: whenever decoding succeeds on a frame whose identifier
byte at offset 7 is 0x08, the result is Center(Success) if the payload
byte at offset 8 is nonzero and Center(Error) if it is zero. -/
theorem from_bytes_center_polarity (bytes : List Nat) (a : SiyiAck)
    (hs : SiyiAck.from_bytes bytes = some (some a))
    (hid : bytes.get? 7 = some 0x08) :
    ∃ b8, bytes.get? 8 = some b8 ∧
      a = .Center (if b8 ≠ 0 then .Success else .Error) := by
  obtain ⟨b7, hb7, hcase⟩ := from_bytes_some_some bytes a hs
  rw [hid] at hb7
  injection hb7 with hb
  subst hb
  rcases hcase with ⟨-, b8, h8, ha⟩ | ⟨hc, -⟩
  · exact ⟨b8, h8, ha⟩
  · exact absurd hc (by decide)

/-- Witness for claim C7: a concrete Center acknowledgment frame with
nonzero payload byte decodes to Center(Success). -/
theorem from_bytes_center_polarity_witness :
    ∃ b8, centerSuccessFrame.get? 8 = some b8 ∧
      SiyiAck.Center AckResult.Success =
        .Center (if b8 ≠ 0 then .Success else .Error) :=
  from_bytes_center_polarity centerSuccessFrame (.Center .Success)
    (by decide) (by decide)

/-- Claim C8: whenever decoding succeeds on a frame whose identifier
byte at offset 7 is 0x0E, the result carries pitch read big-endian from
offsets 8-9, yaw from offsets 10-11 and roll from offsets 12-13. -/
theorem from_bytes_control_angle_fields (bytes : List Nat) (a : SiyiAck)
    (hs : SiyiAck.from_bytes bytes = some (some a))
    (hid : bytes.get? 7 = some 0x0E) :
    ∃ p1 p2 y1 y2 r1 r2,
      bytes.get? 8 = some p1 ∧ bytes.get? 9 = some p2 ∧
      bytes.get? 10 = some y1 ∧ bytes.get? 11 = some y2 ∧
      bytes.get? 12 = some r1 ∧ bytes.get? 13 = some r2 ∧
      a = .ControlAngle { yaw := i16FromBe y1 y2
                          pitch := i16FromBe p1 p2
                          roll := i16FromBe r1 r2 } := by
  obtain ⟨b7, hb7, hcase⟩ := from_bytes_some_some bytes a hs
  rw [hid] at hb7
  injection hb7 with hb
  subst hb
  rcases hcase with ⟨hc, -⟩ | ⟨-, rest⟩
  · exact absurd hc (by decide)
  · exact rest

/-- Witness for claim C8: a concrete ControlAngle acknowledgment frame
decodes to pitch 10, yaw -10, roll 0 read from the stated offsets. -/
theorem from_bytes_control_angle_fields_witness :
    ∃ p1 p2 y1 y2 r1 r2,
      controlAngleAckFrame.get? 8 = some p1 ∧
      controlAngleAckFrame.get? 9 = some p2 ∧
      controlAngleAckFrame.get? 10 = some y1 ∧
      controlAngleAckFrame.get? 11 = some y2 ∧
      controlAngleAckFrame.get? 12 = some r1 ∧
      controlAngleAckFrame.get? 13 = some r2 ∧
      SiyiAck.ControlAngle { yaw := -10, pitch := 10, roll := 0 } =
        .ControlAngle { yaw := i16FromBe y1 y2
                        pitch := i16FromBe p1 p2
                        roll := i16FromBe r1 r2 } :=
  from_bytes_control_angle_fields controlAngleAckFrame
    (.ControlAngle { yaw := -10, pitch := 10, roll := 0 })
    (by decide) (by decide)

end Siyi
